import Mathlib

/-!
Verification of the SharkFund wallet-ledger core (cloudManager/models.py and
cloudManager/views.py), as a shallow embedding.

Monetary amounts are Django Decimal values with two decimal places; they are
embedded as integers (exact arithmetic, no rounding occurs in the source:
only sums, differences and comparisons). Timestamps are irrelevant to every
claim and are omitted. A wallet ledger is the list of its Transaction rows
in primary-key (insertion) order; the persisted Wallet row is the snapshot
of derived fields alongside the ledger.
-/

/-- Account status choices of CustomUser.status (models.py lines 16-19). -/
inductive AccountStatus where
  | Active
  | InActive
deriving DecidableEq

/-- Transaction.transaction_type choices (models.py lines 187-196). -/
inductive TxType where
  | DEPOSIT
  | WITHDRAWAL
  | INCOME
  | RESET_DEPOSIT
  | REFERRAL
deriving DecidableEq

/-- Transaction.status choices (models.py lines 197-201). -/
inductive TxStatus where
  | COMPLETED
  | PENDING
  | FAILED
deriving DecidableEq

/-- One Transaction row (models.py lines 184-203). The timestamp field is
omitted; it is never read by the ledger logic. -/
structure Tx where
  amount : Int
  transaction_type : TxType
  status : TxStatus
  description : String
deriving DecidableEq

/-- Sum of amounts of COMPLETED transactions of one type: the shape of each
aggregate in Wallet.calculate_balance and Wallet.update_from_transactions
(models.py lines 112-114 and 121-124), where an empty aggregate is 0. -/
def sumTy (ty : TxType) (l : List Tx) : Int :=
  ((l.filter (fun t => decide (t.transaction_type = ty ∧ t.status = TxStatus.COMPLETED))).map Tx.amount).sum

/-- The deposits aggregate of Wallet.update_from_transactions (models.py
line 121): COMPLETED transactions whose type is DEPOSIT or RESET_DEPOSIT. -/
def depositsSum (l : List Tx) : Int :=
  ((l.filter (fun t => decide ((t.transaction_type = TxType.DEPOSIT ∨ t.transaction_type = TxType.RESET_DEPOSIT) ∧ t.status = TxStatus.COMPLETED))).map Tx.amount).sum

/-- Wallet.calculate_balance (models.py lines 108-115): withdrawable balance
from COMPLETED INCOME plus REFERRAL minus WITHDRAWAL rows. -/
def calculate_balance (l : List Tx) : Int :=
  sumTy TxType.INCOME l + sumTy TxType.REFERRAL l - sumTy TxType.WITHDRAWAL l

/-- The derived fields persisted on the Wallet row (models.py lines 98-102). -/
structure WalletSnapshot where
  total_deposit : Int
  refer_income : Int
  total_income : Int
  total_withdrawal : Int
  wallet_balance : Int
deriving DecidableEq

/-- Wallet.update_from_transactions (models.py lines 117-133): recompute the
derived fields from the ledger and persist them. -/
def update_from_transactions (l : List Tx) : WalletSnapshot :=
  { total_deposit := max (depositsSum l) 0
    refer_income := sumTy TxType.REFERRAL l
    total_income := sumTy TxType.INCOME l
    total_withdrawal := sumTy TxType.WITHDRAWAL l
    wallet_balance := sumTy TxType.INCOME l + sumTy TxType.REFERRAL l - sumTy TxType.WITHDRAWAL l }

/-- The persisted state of one wallet: its Transaction rows in insertion
order plus the persisted derived-field snapshot on the Wallet row. -/
structure WState where
  ledger : List Tx
  snapshot : WalletSnapshot
deriving DecidableEq

/-- The effect of super().save() on a new row followed by the conditional
wallet update in Transaction.save (models.py lines 221-224): append the row;
re-aggregate the wallet only when the saved status is COMPLETED. -/
def txApply (t : Tx) (s : WState) : WState :=
  { ledger := s.ledger ++ [t]
    snapshot := if t.status = TxStatus.COMPLETED then update_from_transactions (s.ledger ++ [t]) else s.snapshot }

/-- Transaction.save for a new row (models.py lines 208-225, is_new true):
a new COMPLETED WITHDRAWAL is admitted only when the freshly computed
balance covers the amount, else ValidationError; then the row is written
and, when its status is COMPLETED, the wallet is re-aggregated. -/
def txSaveNew (t : Tx) (s : WState) : Except String WState :=
  if t.transaction_type = TxType.WITHDRAWAL ∧ t.status = TxStatus.COMPLETED ∧ calculate_balance s.ledger < t.amount
  then Except.error "Insufficient withdrawable balance"
  else Except.ok (txApply t s)

/-- Transaction.save for an existing row at ledger position i (models.py
lines 208-225, is_new false): the insufficient-balance check at line 216 is
guarded by is_new and is skipped, so the save never fails; the row is
overwritten and the wallet is re-aggregated only when the new status is
COMPLETED. -/
def txSaveExisting (i : Nat) (t : Tx) (s : WState) : Except String WState :=
  Except.ok
    { ledger := s.ledger.set i t
      snapshot := if t.status = TxStatus.COMPLETED then update_from_transactions (s.ledger.set i t) else s.snapshot }

/-- Deleting a Transaction row. The Transaction model defines no delete
override and no pre_delete or post_delete receiver is registered for it
anywhere in the repository, so the framework default applies: the row is
removed from the table and nothing re-aggregates the wallet snapshot. -/
def txDelete (i : Nat) (s : WState) : WState :=
  { ledger := s.ledger.eraseIdx i, snapshot := s.snapshot }

/-- The WITHDRAWAL row created by Wallet.withdraw_funds (models.py
lines 170-176). -/
def withdrawalTx (amount : Int) : Tx :=
  { amount := amount
    transaction_type := TxType.WITHDRAWAL
    status := TxStatus.COMPLETED
    description := "Withdrawal of " ++ toString amount }

/-- The DEPOSIT row created by Wallet.add_funds (models.py lines 143-149). -/
def depositTx (amount : Int) : Tx :=
  { amount := amount
    transaction_type := TxType.DEPOSIT
    status := TxStatus.COMPLETED
    description := "Deposit of " ++ toString amount }

/-- Wallet.withdraw_funds (models.py lines 158-182): reject non-positive
amounts, recompute the balance fresh from the ledger, reject when it is
below the amount, otherwise create one COMPLETED WITHDRAWAL row (whose save
re-checks the balance under lock) and re-aggregate; exceptions from the
create are caught and reported as failure. Returns the success flag and the
resulting wallet state. -/
def withdraw_funds (amount : Int) (s : WState) : Bool × WState :=
  if amount ≤ 0 then (false, s)
  else if calculate_balance s.ledger < amount then (false, s)
  else
    match txSaveNew (withdrawalTx amount) s with
    | Except.ok s2 => (true, s2)
    | Except.error _ => (false, s)

/-- Wallet.add_funds (models.py lines 135-156): reject non-positive
amounts, otherwise create one COMPLETED DEPOSIT row and re-aggregate. -/
def add_funds (amount : Int) (s : WState) : Bool × WState :=
  if amount ≤ 0 then (false, s)
  else
    match txSaveNew (depositTx amount) s with
    | Except.ok s2 => (true, s2)
    | Except.error _ => (false, s)

/-- The REFERRAL bonus row created on activation (models.py lines 311-317):
fixed amount Decimal 400.00, status COMPLETED, description naming the
activated user. -/
def referralBonusTx (username : String) : Tx :=
  { amount := 400
    transaction_type := TxType.REFERRAL
    status := TxStatus.COMPLETED
    description := "Referral bonus for activation of " ++ username }

/-- The pre_save receiver handle_referral_income_on_activation (models.py
lines 302-323), acting on the referrer wallet state rs. hasPk is whether the
saved user already exists in the database (instance.pk set); oldStatus is
the persisted prior status, newStatus the incoming one; hasReferrer is
whether referred_by is non-null; referrerHasWallet is the hasattr wallet
check. The bonus row is COMPLETED, so its save re-aggregates the referrer
wallet (the WITHDRAWAL admission check does not apply to REFERRAL rows). -/
def handle_referral_income_on_activation (hasPk : Bool) (oldStatus newStatus : AccountStatus)
    (hasReferrer referrerHasWallet : Bool) (username : String) (rs : WState) : WState :=
  if hasPk = true ∧ oldStatus ≠ AccountStatus.Active ∧ newStatus = AccountStatus.Active
     ∧ hasReferrer = true ∧ referrerHasWallet = true
  then txApply (referralBonusTx username) rs
  else rs

/-- The INCOME row created by the MonthlyIncome post_save receiver
(models.py lines 331-337). -/
def incomeTx (total_income : Int) (month : String) : Tx :=
  { amount := total_income
    transaction_type := TxType.INCOME
    status := TxStatus.COMPLETED
    description := "Monthly income for " ++ month }

/-- The compensating RESET_DEPOSIT row (models.py lines 344-350): negation
of the current net COMPLETED deposit sum. -/
def resetTx (current_deposit : Int) (month : String) : Tx :=
  { amount := -current_deposit
    transaction_type := TxType.RESET_DEPOSIT
    status := TxStatus.COMPLETED
    description := "Reset deposit for " ++ month }

/-- The post_save receiver update_wallet_on_monthly_income_save (models.py
lines 325-351) on creation of a MonthlyIncome row: append a COMPLETED
INCOME row of the total_income, then compute the current net COMPLETED
DEPOSIT plus RESET_DEPOSIT sum and, only when it is positive, append a
COMPLETED RESET_DEPOSIT row of its negation. Both creates go through
Transaction.save; neither is a WITHDRAWAL, so no admission check applies
and each COMPLETED save re-aggregates the wallet. -/
def update_wallet_on_monthly_income_save (total_income : Int) (month : String) (s : WState) : WState :=
  let s1 := txApply (incomeTx total_income month) s
  let current_deposit := depositsSum s1.ledger
  if 0 < current_deposit then txApply (resetTx current_deposit month) s1 else s1

/-- The queryset filter plus first() of models.py lines 358-362: the first
COMPLETED INCOME row whose description matches the month, together with its
ledger position. -/
def findIncomeTx (month : String) : List Tx → Option (Nat × Tx)
  | [] => none
  | t :: l =>
      if t.transaction_type = TxType.INCOME ∧ t.status = TxStatus.COMPLETED
         ∧ t.description = "Monthly income for " ++ month
      then some (0, t)
      else (findIncomeTx month l).map (fun p => (p.1 + 1, p.2))

/-- The pre_delete receiver update_wallet_on_monthly_income_delete
(models.py lines 353-373): find the matching COMPLETED INCOME row; when
none exists nothing happens; when the freshly computed balance covers its
amount, flip its status to FAILED via Transaction.save (an existing-row
save); otherwise raise ValidationError, aborting the delete with no
change. -/
def update_wallet_on_monthly_income_delete (month : String) (s : WState) : Except String WState :=
  match findIncomeTx month s.ledger with
  | none => Except.ok s
  | some (i, t) =>
      if t.amount ≤ calculate_balance s.ledger
      then txSaveExisting i { t with status := TxStatus.FAILED } s
      else Except.error "Cannot delete monthly income: insufficient wallet balance"

/-- A node of the referral forest: a user with an account status and the
list of users directly referred by them (the referrals related set). The
inductive tree is the acyclic referral graph read by the recursive
aggregations. -/
inductive RefTree where
  | node (status : AccountStatus) (children : List RefTree)

/-- The account status of the user at the root of a referral subtree. -/
def RefTree.nodeStatus : RefTree → AccountStatus
  | .node st _ => st

/-- The direct referrals of the user at the root. -/
def RefTree.childList : RefTree → List RefTree
  | .node _ cs => cs

mutual
/-- CustomUser.total_team (models.py lines 50-57): count_referrals sums the
direct count and, recursively, the counts of each referral subtree. -/
def total_team : RefTree → Nat
  | .node _ cs => totalTeamOf cs
/-- The per-referral accumulation inside count_referrals: each direct
referral contributes itself plus its own recursive count. -/
def totalTeamOf : List RefTree → Nat
  | [] => 0
  | c :: cs => (1 + total_team c) + totalTeamOf cs
end

mutual
/-- TeamReferralStatsView.get.get_team (views.py): the recursive pair of
total and active team counts over the referral subtree of a user. -/
def get_team : RefTree → Nat × Nat
  | .node _ cs => getTeamOf cs
/-- The loop body of get_team over the direct referrals. -/
def getTeamOf : List RefTree → Nat × Nat
  | [] => (0, 0)
  | c :: cs =>
      let sub := get_team c
      let rest := getTeamOf cs
      (1 + sub.1 + rest.1,
       (if c.nodeStatus = AccountStatus.Active then 1 else 0) + sub.2 + rest.2)
end

/-- CustomUser.total_referrals (models.py lines 80-82): the count of the
direct referrals. -/
def total_referrals (t : RefTree) : Nat :=
  t.childList.length

/-- CustomUser.active_referrals (models.py lines 76-78): the count of the
direct referrals with status Active. -/
def active_referrals (t : RefTree) : Nat :=
  (t.childList.filter (fun c => decide (c.nodeStatus = AccountStatus.Active))).length

mutual
/-- The list of all transitive descendants of a user in the referral
forest, written from the words of the specification: the direct referrals
plus, recursively, their referrals. Used to compare total_team against the
stated meaning. -/
def descList : RefTree → List RefTree
  | .node _ cs => descListOf cs
/-- Descendants contributed by a list of direct referrals: each referral
itself followed by its own descendants. -/
def descListOf : List RefTree → List RefTree
  | [] => []
  | c :: cs => c :: (descList c ++ descListOf cs)
end

/-- A concrete one-row ledger: a COMPLETED monthly INCOME of 100. -/
def ledgerA : List Tx := [incomeTx 100 "January"]

/-- The wallet state holding ledgerA with its snapshot freshly
aggregated. -/
def stateA : WState := { ledger := ledgerA, snapshot := update_from_transactions ledgerA }

/-- The row of ledgerA after its status is flipped to FAILED. -/
def txAFailed : Tx := { incomeTx 100 "January" with status := TxStatus.FAILED }

/-- A concrete two-row ledger: a COMPLETED INCOME of 100 and a COMPLETED
DEPOSIT of 50. -/
def ledgerB : List Tx := [incomeTx 100 "January", depositTx 50]

/-- The wallet state holding ledgerB with its snapshot freshly
aggregated. -/
def stateB : WState := { ledger := ledgerB, snapshot := update_from_transactions ledgerB }

/-- The empty wallet state: no transactions, snapshot aggregated from the
empty ledger. -/
def stateEmpty : WState := { ledger := [], snapshot := update_from_transactions [] }

/-- A concrete PENDING WITHDRAWAL row of 70. -/
def pendingW70 : Tx :=
  { amount := 70
    transaction_type := TxType.WITHDRAWAL
    status := TxStatus.PENDING
    description := "Withdrawal of 70" }

/-- A wallet state with a COMPLETED INCOME of 30 and a PENDING WITHDRAWAL
of 70, snapshot freshly aggregated. -/
def stateC : WState :=
  { ledger := [incomeTx 30 "February", pendingW70]
    snapshot := update_from_transactions [incomeTx 30 "February", pendingW70] }

/-- Referral chain leaf: the user C, Active, no referrals. -/
def userC : RefTree := RefTree.node AccountStatus.Active []

/-- The user B, Active, who referred C. -/
def userB : RefTree := RefTree.node AccountStatus.Active [userC]

/-- The user A, who referred B and nobody else. -/
def userA : RefTree := RefTree.node AccountStatus.InActive [userB]

/-! ## Helper lemmas about the aggregates -/

theorem sumTy_cons (ty : TxType) (t : Tx) (l : List Tx) :
    sumTy ty (t :: l) =
      (if t.transaction_type = ty ∧ t.status = TxStatus.COMPLETED then t.amount else 0) + sumTy ty l := by
  by_cases hc : t.transaction_type = ty ∧ t.status = TxStatus.COMPLETED
  · simp [sumTy, List.filter_cons, hc]
  · simp [sumTy, List.filter_cons, hc]

theorem sumTy_append (ty : TxType) (l1 l2 : List Tx) :
    sumTy ty (l1 ++ l2) = sumTy ty l1 + sumTy ty l2 := by
  simp [sumTy, List.filter_append]

theorem depositsSum_cons (t : Tx) (l : List Tx) :
    depositsSum (t :: l) =
      (if (t.transaction_type = TxType.DEPOSIT ∨ t.transaction_type = TxType.RESET_DEPOSIT)
          ∧ t.status = TxStatus.COMPLETED then t.amount else 0) + depositsSum l := by
  by_cases hc : (t.transaction_type = TxType.DEPOSIT ∨ t.transaction_type = TxType.RESET_DEPOSIT)
      ∧ t.status = TxStatus.COMPLETED
  · simp [depositsSum, List.filter_cons, hc]
  · simp [depositsSum, List.filter_cons, hc]

theorem depositsSum_append (l1 l2 : List Tx) :
    depositsSum (l1 ++ l2) = depositsSum l1 + depositsSum l2 := by
  simp [depositsSum, List.filter_append]

/-! ## Claim theorems -/

/-- C1: for every wallet ledger, the derived balance given by
calculate_balance and the wallet_balance field persisted by
update_from_transactions both equal the sum of COMPLETED INCOME amounts
plus the sum of COMPLETED REFERRAL amounts minus the sum of COMPLETED
WITHDRAWAL amounts, and a transaction that is a DEPOSIT, a RESET_DEPOSIT,
or not COMPLETED never contributes to it. -/
theorem derived_balance_formula (l : List Tx) (t : Tx)
    (h : t.transaction_type = TxType.DEPOSIT ∨ t.transaction_type = TxType.RESET_DEPOSIT
         ∨ t.status ≠ TxStatus.COMPLETED) :
    calculate_balance l
        = sumTy TxType.INCOME l + sumTy TxType.REFERRAL l - sumTy TxType.WITHDRAWAL l ∧
    (update_from_transactions l).wallet_balance = calculate_balance l ∧
    calculate_balance (t :: l) = calculate_balance l ∧
    (update_from_transactions (t :: l)).wallet_balance
        = (update_from_transactions l).wallet_balance := by
  have hz : ∀ ty : TxType, ty ≠ TxType.DEPOSIT → ty ≠ TxType.RESET_DEPOSIT →
      sumTy ty (t :: l) = sumTy ty l := by
    intro ty h1 h2
    rw [sumTy_cons]
    have hcond : ¬ (t.transaction_type = ty ∧ t.status = TxStatus.COMPLETED) := by
      rintro ⟨ha, hb⟩
      rcases h with h | h | h
      · exact h1 (by rw [← ha, h])
      · exact h2 (by rw [← ha, h])
      · exact h hb
    simp [hcond]
  refine ⟨rfl, rfl, ?_, ?_⟩
  · unfold calculate_balance
    rw [hz TxType.INCOME (by simp) (by simp), hz TxType.REFERRAL (by simp) (by simp),
        hz TxType.WITHDRAWAL (by simp) (by simp)]
  · simp only [update_from_transactions]
    rw [hz TxType.INCOME (by simp) (by simp), hz TxType.REFERRAL (by simp) (by simp),
        hz TxType.WITHDRAWAL (by simp) (by simp)]

/-- Witness for C1 at a concrete input: a COMPLETED DEPOSIT of 50 does not
change the derived balance of the one-income ledger. -/
theorem derived_balance_formula_witness :
    (depositTx 50).transaction_type = TxType.DEPOSIT ∧
    calculate_balance (depositTx 50 :: ledgerA) = calculate_balance ledgerA :=
  ⟨rfl, (derived_balance_formula ledgerA (depositTx 50) (Or.inl rfl)).2.2.1⟩

/-- C2: withdraw_funds rejects, leaving the ledger and the persisted
snapshot unchanged, exactly when the amount is non-positive or the freshly
recomputed balance is below it; otherwise it appends exactly one COMPLETED
WITHDRAWAL row of that amount and re-aggregates the snapshot. -/
theorem withdraw_funds_admission (a : Int) (s : WState) :
    ((a ≤ 0 ∨ calculate_balance s.ledger < a) → withdraw_funds a s = (false, s)) ∧
    (0 < a → a ≤ calculate_balance s.ledger →
      withdraw_funds a s =
        (true, { ledger := s.ledger ++ [withdrawalTx a]
                 snapshot := update_from_transactions (s.ledger ++ [withdrawalTx a]) })) := by
  constructor
  · intro h
    by_cases h0 : a ≤ 0
    · simp [withdraw_funds, h0]
    · have hb : calculate_balance s.ledger < a := by
        rcases h with h | h
        · exact absurd h h0
        · exact h
      simp [withdraw_funds, h0, hb]
  · intro h1 h2
    have h0 : ¬ a ≤ 0 := by omega
    have hb : ¬ calculate_balance s.ledger < a := by omega
    simp [withdraw_funds, h0, hb, txSaveNew, withdrawalTx, txApply]

/-- Witness for C2 at concrete inputs: on a wallet holding one COMPLETED
INCOME of 100, a withdrawal of 60 succeeds and appends the row, and a
withdrawal of 200 is rejected with the state unchanged. -/
theorem withdraw_funds_admission_witness :
    withdraw_funds 60 stateA =
      (true, { ledger := stateA.ledger ++ [withdrawalTx 60]
               snapshot := update_from_transactions (stateA.ledger ++ [withdrawalTx 60]) }) ∧
    withdraw_funds 200 stateA = (false, stateA) :=
  ⟨(withdraw_funds_admission 60 stateA).2 (by decide) (by decide),
   (withdraw_funds_admission 200 stateA).1 (Or.inr (by decide))⟩

/-- C3 counterexample: flipping the COMPLETED INCOME row of a freshly
aggregated wallet to FAILED through Transaction.save leaves the persisted
snapshot untouched, and that snapshot differs from the pure aggregation
over the new ledger, so the snapshot is stale after this status write. -/
theorem save_failed_transition_stale_cex :
    txSaveExisting 0 txAFailed stateA =
      Except.ok { ledger := [txAFailed], snapshot := stateA.snapshot } ∧
    stateA.snapshot ≠ update_from_transactions [txAFailed] := by
  constructor
  · rfl
  · decide

/-- C3 amended: a save of a Transaction re-aggregates the owning wallet
exactly when the saved status is COMPLETED; a save whose new status is
PENDING or FAILED (in particular a COMPLETED to FAILED transition of an
existing row) writes the row but leaves the persisted snapshot unchanged,
so the snapshot can be stale after such a transition. -/
theorem save_reaggregates_iff_completed (i : Nat) (t u : Tx) (s : WState) :
    (t.status = TxStatus.COMPLETED →
       txSaveExisting i t s =
         Except.ok { ledger := s.ledger.set i t
                     snapshot := update_from_transactions (s.ledger.set i t) }) ∧
    (t.status ≠ TxStatus.COMPLETED →
       txSaveExisting i t s = Except.ok { ledger := s.ledger.set i t, snapshot := s.snapshot }) ∧
    (u.status = TxStatus.COMPLETED →
       txApply u s = { ledger := s.ledger ++ [u]
                       snapshot := update_from_transactions (s.ledger ++ [u]) }) ∧
    (u.status ≠ TxStatus.COMPLETED →
       txApply u s = { ledger := s.ledger ++ [u], snapshot := s.snapshot }) := by
  refine ⟨?_, ?_, ?_, ?_⟩ <;> intro h <;> simp [txSaveExisting, txApply, h]

/-- Witness for the amended C3 at a concrete input: the FAILED row write on
the one-income wallet keeps the old snapshot. -/
theorem save_reaggregates_iff_completed_witness :
    txAFailed.status ≠ TxStatus.COMPLETED ∧
    txSaveExisting 0 txAFailed stateA =
      Except.ok { ledger := stateA.ledger.set 0 txAFailed, snapshot := stateA.snapshot } :=
  ⟨by decide, (save_reaggregates_iff_completed 0 txAFailed txAFailed stateA).2.1 (by decide)⟩

/-- C4: for a save of an existing user whose referrer has a wallet, the
activation handler appends exactly one COMPLETED REFERRAL row of amount
400 to the referrer ledger exactly when the persisted prior status was not
Active, the incoming status is Active, and referred_by is non-null; in
every other case, re-saving an already Active user included, the referrer
wallet state is untouched. -/
theorem referral_bonus_on_activation (hasPk hasRef hasWallet : Bool)
    (oldS newS : AccountStatus) (u : String) (rs : WState)
    (hpk : hasPk = true) (hw : hasWallet = true) :
    ((handle_referral_income_on_activation hasPk oldS newS hasRef hasWallet u rs).ledger
        = rs.ledger ++ [referralBonusTx u]
      ↔ (oldS ≠ AccountStatus.Active ∧ newS = AccountStatus.Active ∧ hasRef = true)) ∧
    (¬ (oldS ≠ AccountStatus.Active ∧ newS = AccountStatus.Active ∧ hasRef = true) →
       handle_referral_income_on_activation hasPk oldS newS hasRef hasWallet u rs = rs) ∧
    (referralBonusTx u).amount = 400 ∧
    (referralBonusTx u).transaction_type = TxType.REFERRAL ∧
    (referralBonusTx u).status = TxStatus.COMPLETED := by
  subst hpk
  subst hw
  have hneg : ¬ (oldS ≠ AccountStatus.Active ∧ newS = AccountStatus.Active ∧ hasRef = true) →
      ¬ (true = true ∧ oldS ≠ AccountStatus.Active ∧ newS = AccountStatus.Active
         ∧ hasRef = true ∧ true = true) := by
    intro hc hcon
    exact hc ⟨hcon.2.1, hcon.2.2.1, hcon.2.2.2.1⟩
  refine ⟨?_, ?_, rfl, rfl, rfl⟩
  · by_cases hc : oldS ≠ AccountStatus.Active ∧ newS = AccountStatus.Active ∧ hasRef = true
    · obtain ⟨h1, h2, h3⟩ := hc
      simp [handle_referral_income_on_activation, h1, h2, h3, txApply]
    · rw [handle_referral_income_on_activation, if_neg (hneg hc)]
      simp [hc]
  · intro hc
    rw [handle_referral_income_on_activation, if_neg (hneg hc)]

/-- Witness for C4 at a concrete input: activating an InActive user with a
referrer pays the bonus into the empty referrer wallet. -/
theorem referral_bonus_on_activation_witness :
    (handle_referral_income_on_activation true AccountStatus.InActive AccountStatus.Active
        true true "bob" stateEmpty).ledger
      = stateEmpty.ledger ++ [referralBonusTx "bob"] :=
  ((referral_bonus_on_activation true true true AccountStatus.InActive AccountStatus.Active
      "bob" stateEmpty rfl rfl).1).mpr (by decide)

/-- C5 counterexample: deleting the single transaction of a wallet removes
the row, so the ledger row count changes from 1 to 0 - the delete is not
intercepted and is not a no-op. -/
theorem transaction_delete_noop_cex :
    (txDelete 0 stateA).ledger.length = 0 ∧ stateA.ledger.length = 1 :=
  ⟨rfl, rfl⟩

/-- C5 amended: a delete of a Transaction at a valid position actually
removes the row, shrinking the ledger by one; no hook runs, so the
persisted wallet snapshot is carried over unchanged (and is therefore
stale whenever the removed row contributed to it). -/
theorem transaction_delete_removes_row (i : Nat) (s : WState) (h : i < s.ledger.length) :
    (txDelete i s).ledger.length = s.ledger.length - 1 ∧
    (txDelete i s).snapshot = s.snapshot := by
  constructor
  · simp [txDelete, List.length_eraseIdx, h]
  · rfl

/-- Witness for the amended C5 at a concrete input: deleting the only row
of the one-income wallet leaves zero rows and the old snapshot. -/
theorem transaction_delete_removes_row_witness :
    0 < stateA.ledger.length ∧
    ((txDelete 0 stateA).ledger.length = stateA.ledger.length - 1 ∧
     (txDelete 0 stateA).snapshot = stateA.snapshot) :=
  ⟨by decide, transaction_delete_removes_row 0 stateA (by decide)⟩

/-- C6 counterexample: a monthly-income batch on a wallet with no prior
deposits appends only the INCOME row and no RESET_DEPOSIT row, because the
compensating row is created only when the current net deposit sum is
strictly positive. -/
theorem monthly_income_reset_cex :
    ((update_wallet_on_monthly_income_save 100 "May" stateEmpty).ledger.filter
        (fun t => decide (t.transaction_type = TxType.RESET_DEPOSIT))).length = 0 ∧
    (update_wallet_on_monthly_income_save 100 "May" stateEmpty).ledger.length
        = stateEmpty.ledger.length + 1 := by
  decide

/-- C6 amended: a monthly-income batch appends one COMPLETED INCOME row
and, exactly when the current net COMPLETED deposit sum is strictly
positive, one compensating COMPLETED RESET_DEPOSIT row of its negation;
in all cases the persisted total_deposit immediately after the batch
is 0. -/
theorem monthly_income_batch_effect (ti : Int) (m : String) (s : WState) :
    (0 < depositsSum s.ledger →
       (update_wallet_on_monthly_income_save ti m s).ledger
         = s.ledger ++ [incomeTx ti m, resetTx (depositsSum s.ledger) m]) ∧
    (depositsSum s.ledger ≤ 0 →
       (update_wallet_on_monthly_income_save ti m s).ledger = s.ledger ++ [incomeTx ti m]) ∧
    (update_wallet_on_monthly_income_save ti m s).snapshot.total_deposit = 0 := by
  have hd : depositsSum (s.ledger ++ [incomeTx ti m]) = depositsSum s.ledger := by
    rw [depositsSum_append]
    simp [depositsSum, incomeTx]
  refine ⟨?_, ?_, ?_⟩
  · intro h
    simp only [update_wallet_on_monthly_income_save, txApply]
    rw [hd, if_pos h]
    simp
  · intro h
    have h2 : ¬ 0 < depositsSum s.ledger := by omega
    simp only [update_wallet_on_monthly_income_save, txApply]
    rw [hd, if_neg h2]
  · by_cases h : 0 < depositsSum s.ledger
    · have hL : depositsSum ((s.ledger ++ [incomeTx ti m]) ++ [resetTx (depositsSum s.ledger) m]) = 0 := by
        rw [depositsSum_append, hd]
        simp [depositsSum, resetTx]
      simp only [update_wallet_on_monthly_income_save, txApply]
      rw [hd, if_pos h]
      show (update_from_transactions
          ((s.ledger ++ [incomeTx ti m]) ++ [resetTx (depositsSum s.ledger) m])).total_deposit = 0
      simp only [update_from_transactions]
      rw [hL]
      rfl
    · have h2 : depositsSum s.ledger ≤ 0 := by omega
      simp only [update_wallet_on_monthly_income_save, txApply]
      rw [hd, if_neg h]
      show (update_from_transactions (s.ledger ++ [incomeTx ti m])).total_deposit = 0
      simp only [update_from_transactions]
      rw [hd]
      exact max_eq_right h2

/-- Witness for the amended C6 at a concrete input: on a wallet with a
COMPLETED DEPOSIT of 50, the batch appends the INCOME row and the
compensating RESET_DEPOSIT row and the persisted total_deposit becomes 0. -/
theorem monthly_income_batch_effect_witness :
    0 < depositsSum stateB.ledger ∧
    (update_wallet_on_monthly_income_save 20 "March" stateB).ledger
      = stateB.ledger ++ [incomeTx 20 "March", resetTx (depositsSum stateB.ledger) "March"] ∧
    (update_wallet_on_monthly_income_save 20 "March" stateB).snapshot.total_deposit = 0 :=
  ⟨by decide, (monthly_income_batch_effect 20 "March" stateB).1 (by decide),
   (monthly_income_batch_effect 20 "March" stateB).2.2⟩

/-- Overwriting the element at the junction position of an appended list. -/
theorem set_at_append (a : List Tx) (t : Tx) (b : List Tx) (t2 : Tx) :
    (a ++ t :: b).set a.length t2 = a ++ t2 :: b := by
  induction a with
  | nil => rfl
  | cons x xs ih =>
      show x :: ((xs ++ t :: b).set xs.length t2) = x :: (xs ++ t2 :: b)
      rw [ih]

/-- C7: completing an existing PENDING WITHDRAWAL through Transaction.save
is not subject to the insufficient-funds admission check (which is guarded
by is_new), so the save succeeds even when the freshly computed balance is
below the amount, and the re-aggregated wallet_balance, equal to the old
balance minus the amount, is then negative. -/
theorem pending_withdrawal_completion_unchecked (a b : List Tx) (t : Tx) (snap : WalletSnapshot)
    (hty : t.transaction_type = TxType.WITHDRAWAL) (hst : t.status = TxStatus.PENDING)
    (hbal : calculate_balance (a ++ t :: b) < t.amount) :
    txSaveExisting a.length { t with status := TxStatus.COMPLETED }
        { ledger := a ++ t :: b, snapshot := snap }
      = Except.ok
          { ledger := a ++ { t with status := TxStatus.COMPLETED } :: b
            snapshot := update_from_transactions (a ++ { t with status := TxStatus.COMPLETED } :: b) } ∧
    (update_from_transactions (a ++ { t with status := TxStatus.COMPLETED } :: b)).wallet_balance
      = calculate_balance (a ++ t :: b) - t.amount ∧
    (update_from_transactions (a ++ { t with status := TxStatus.COMPLETED } :: b)).wallet_balance < 0 := by
  have hI : sumTy TxType.INCOME (a ++ { t with status := TxStatus.COMPLETED } :: b)
      = sumTy TxType.INCOME (a ++ t :: b) := by
    rw [sumTy_append, sumTy_cons, sumTy_append, sumTy_cons]
    simp [hty, hst]
  have hR : sumTy TxType.REFERRAL (a ++ { t with status := TxStatus.COMPLETED } :: b)
      = sumTy TxType.REFERRAL (a ++ t :: b) := by
    rw [sumTy_append, sumTy_cons, sumTy_append, sumTy_cons]
    simp [hty, hst]
  have hW : sumTy TxType.WITHDRAWAL (a ++ { t with status := TxStatus.COMPLETED } :: b)
      = sumTy TxType.WITHDRAWAL (a ++ t :: b) + t.amount := by
    rw [sumTy_append, sumTy_cons, sumTy_append, sumTy_cons]
    simp [hty, hst]
    ring
  have hb2 : (update_from_transactions (a ++ { t with status := TxStatus.COMPLETED } :: b)).wallet_balance
      = calculate_balance (a ++ t :: b) - t.amount := by
    simp only [update_from_transactions, calculate_balance]
    rw [hI, hR, hW]
    ring
  refine ⟨?_, hb2, ?_⟩
  · simp [txSaveExisting, set_at_append]
  · rw [hb2]
    omega

/-- Witness for C7 at a concrete input: a wallet holding a COMPLETED
INCOME of 30 and a PENDING WITHDRAWAL of 70; completing the withdrawal is
admitted and drives the re-aggregated balance below zero. -/
theorem pending_withdrawal_completion_unchecked_witness :
    calculate_balance ([incomeTx 30 "February"] ++ pendingW70 :: []) < pendingW70.amount ∧
    (update_from_transactions
        ([incomeTx 30 "February"] ++ { pendingW70 with status := TxStatus.COMPLETED } :: [])).wallet_balance < 0 :=
  ⟨by decide,
   (pending_withdrawal_completion_unchecked [incomeTx 30 "February"] [] pendingW70
      stateC.snapshot rfl rfl (by decide)).2.2⟩

/-- The row found by findIncomeTx really is a COMPLETED INCOME row with
the matching description, sitting at the reported ledger position. -/
theorem findIncomeTx_spec (m : String) :
    ∀ (l : List Tx) (i : Nat) (t : Tx), findIncomeTx m l = some (i, t) →
      t.transaction_type = TxType.INCOME ∧ t.status = TxStatus.COMPLETED ∧
      t.description = "Monthly income for " ++ m ∧ l.get? i = some t := by
  intro l
  induction l with
  | nil =>
      intro i t h
      simp [findIncomeTx] at h
  | cons x xs ih =>
      intro i t h
      by_cases hc : x.transaction_type = TxType.INCOME ∧ x.status = TxStatus.COMPLETED
          ∧ x.description = "Monthly income for " ++ m
      · rw [findIncomeTx, if_pos hc] at h
        simp only [Option.some.injEq, Prod.mk.injEq] at h
        obtain ⟨hi, ht⟩ := h
        subst hi
        subst ht
        exact ⟨hc.1, hc.2.1, hc.2.2, rfl⟩
      · rw [findIncomeTx, if_neg hc] at h
        cases hfx : findIncomeTx m xs with
        | none =>
            rw [hfx] at h
            simp at h
        | some p =>
            rw [hfx] at h
            simp only [Option.map_some', Option.some.injEq, Prod.mk.injEq] at h
            obtain ⟨hi, ht⟩ := h
            obtain ⟨h1, h2, h3, h4⟩ := ih p.1 p.2 hfx
            subst hi
            subst ht
            exact ⟨h1, h2, h3, h4⟩

/-- C8: when a COMPLETED INCOME row matching the month exists, deleting the
MonthlyIncome record flips that row to FAILED in place (the row count is
unchanged, nothing is removed) exactly when the freshly computed balance
covers its amount; when the balance is below the amount the deletion
raises the insufficient-balance error and no row changes. -/
theorem monthly_income_delete_guard (m : String) (s : WState) (i : Nat) (t : Tx)
    (hf : findIncomeTx m s.ledger = some (i, t)) :
    (t.amount ≤ calculate_balance s.ledger →
       update_wallet_on_monthly_income_delete m s =
         Except.ok { ledger := s.ledger.set i { t with status := TxStatus.FAILED }
                     snapshot := s.snapshot } ∧
       (s.ledger.set i { t with status := TxStatus.FAILED }).length = s.ledger.length) ∧
    (calculate_balance s.ledger < t.amount →
       update_wallet_on_monthly_income_delete m s =
         Except.error "Cannot delete monthly income: insufficient wallet balance") ∧
    t.transaction_type = TxType.INCOME ∧ t.status = TxStatus.COMPLETED := by
  obtain ⟨h1, h2, h3, h4⟩ := findIncomeTx_spec m s.ledger i t hf
  refine ⟨?_, ?_, h1, h2⟩
  · intro hle
    constructor
    · simp only [update_wallet_on_monthly_income_delete, hf]
      rw [if_pos hle]
      simp [txSaveExisting]
    · simp [List.length_set]
  · intro hlt
    have hn : ¬ t.amount ≤ calculate_balance s.ledger := by omega
    simp only [update_wallet_on_monthly_income_delete, hf]
    rw [if_neg hn]

/-- Witness for C8 at a concrete input: on the one-income wallet, deleting
the January MonthlyIncome flips its INCOME row to FAILED in place. -/
theorem monthly_income_delete_guard_witness :
    findIncomeTx "January" stateA.ledger = some (0, incomeTx 100 "January") ∧
    update_wallet_on_monthly_income_delete "January" stateA =
      Except.ok { ledger := stateA.ledger.set 0 { incomeTx 100 "January" with status := TxStatus.FAILED }
                  snapshot := stateA.snapshot } :=
  ⟨by decide,
   ((monthly_income_delete_guard "January" stateA 0 (incomeTx 100 "January") (by decide)).1
      (by decide)).1⟩

mutual
/-- The recursive team count of a referral subtree equals the number of
its transitive descendants. -/
theorem total_team_eq_descLen : ∀ t : RefTree, total_team t = (descList t).length
  | .node st cs => by
      simp only [total_team, descList]
      exact totalTeamOf_eq_descLen cs
/-- List form of the descendant-count agreement. -/
theorem totalTeamOf_eq_descLen : ∀ l : List RefTree, totalTeamOf l = (descListOf l).length
  | [] => rfl
  | c :: cs => by
      simp only [totalTeamOf, descListOf, List.length_cons, List.length_append]
      rw [total_team_eq_descLen c, totalTeamOf_eq_descLen cs]
      omega
end

/-- C9: in the acyclic referral forest total_team counts all transitive
descendants via the referral edges, total_referrals and active_referrals
are the depth-1 restrictions over the direct referrals, and on the chain
where A refers B and B refers C with B and C both Active the counts are
A.total_team = 2, A.total_referrals = 1, A.active_referrals = 1 (and the
view recursion get_team agrees). -/
theorem team_counts_spec :
    (∀ t : RefTree, total_team t = (descList t).length) ∧
    (∀ t : RefTree, total_referrals t = t.childList.length) ∧
    (∀ t : RefTree, active_referrals t =
        (t.childList.filter (fun c => decide (c.nodeStatus = AccountStatus.Active))).length) ∧
    total_team userA = 2 ∧ total_referrals userA = 1 ∧ active_referrals userA = 1 ∧
    get_team userA = (2, 2) := by
  refine ⟨total_team_eq_descLen, fun t => rfl, fun t => rfl, ?_, rfl, ?_, ?_⟩
  · simp [userA, userB, userC, total_team, totalTeamOf]
  · simp [userA, userB, userC, active_referrals, RefTree.childList, RefTree.nodeStatus]
  · simp [userA, userB, userC, get_team, getTeamOf, RefTree.nodeStatus]
